import Mathlib

/-
  Verification development for the agentOps operator scripts.

  Shallow embedding of the data-handling code in
    cleanup-data.py, direct-data-upload.py, upload-clean-data.py,
    upload-test-data.py, test-comprehensive.py.
  Numeric row values are modelled over the rationals; the Python NaN and
  a missing column are modelled explicitly, since the scripts treat them
  through pd.notna checks and dict .get defaults.  HTTP and database
  effects are modelled by explicit environment parameters (response per
  request), which makes every script loop a pure function of its inputs
  and the environment.
-/

namespace AgentOps

/-- Raw spreadsheet cell as the scripts observe it through pandas:
either the column is missing from the row, or it holds the float NaN,
or it holds an ordinary numeric value (modelled as a rational). -/
inductive PyVal where
  | missing
  | nan
  | num (q : ℚ)
  deriving DecidableEq

/-- Result of a Python float expression: NaN or a numeric value. -/
inductive PyFloat where
  | nan
  | num (q : ℚ)
  deriving DecidableEq

/-- Python builtin min of two floats: `min(a, b)` keeps `a` unless `b < a`;
every comparison against NaN is false, so `min(100.0, nan) = 100.0` while
`min(nan, 100.0) = nan`. -/
def pymin (a b : PyFloat) : PyFloat :=
  match a, b with
  | PyFloat.num x, PyFloat.num y => if y < x then PyFloat.num y else PyFloat.num x
  | _, _ => a

/-- Python builtin max of two floats: `max(a, b)` keeps `a` unless `a < b`;
every comparison against NaN is false, so `max(0.0, nan) = 0.0`. -/
def pymax (a b : PyFloat) : PyFloat :=
  match a, b with
  | PyFloat.num x, PyFloat.num y => if x < y then PyFloat.num y else PyFloat.num x
  | _, _ => a

/-- The guarded coercion pattern of the upload scripts:
`float(row.get(k, d)) if pd.notna(row.get(k)) else d`.
Both a missing column and NaN fail `pd.notna`, so both give the default. -/
def coerceNotna (v : PyVal) (d : ℚ) : ℚ :=
  match v with
  | PyVal.num q => q
  | _ => d

/-- The unguarded coercion `float(row.get(k, d))`: a missing column takes
the default, but a present NaN stays NaN. -/
def pyFloatOf (v : PyVal) (d : ℚ) : PyFloat :=
  match v with
  | PyVal.missing => PyFloat.num d
  | PyVal.nan => PyFloat.nan
  | PyVal.num q => PyFloat.num q

/-- Python `int()` truncation toward zero on a rational. -/
def pyInt (q : ℚ) : ℤ := if 0 ≤ q then ⌊q⌋ else -⌊-q⌋

/-- The clamp `max(0, min(100, x))` on an ordinary numeric value. -/
def clamp (q : ℚ) : ℚ := max 0 (min 100 q)

/-- One raw metrics row, restricted to the numeric columns the transforms
read (the timestamp column is not part of any claim and is omitted). -/
structure RawMetricRow where
  cpu_usage : PyVal
  memory_usage : PyVal
  disk_usage : PyVal
  network_latency : PyVal
  network_throughput : PyVal
  process_count : PyVal
  deriving DecidableEq

/-- The percentage fields of the record built by direct-data-upload.py. -/
structure DirectMetric where
  cpu_usage : ℚ
  memory_usage : ℚ
  disk_usage : ℚ
  deriving DecidableEq

/-- Embedding of the per-row cleaning in `upload_metrics_data`
(direct-data-upload.py lines 48..55): notna-guarded coercion with
defaults 0, 0 and 50, followed by the clamp to [0, 100]. -/
def directCleanRow (r : RawMetricRow) : DirectMetric :=
  { cpu_usage := clamp (coerceNotna r.cpu_usage 0)
    memory_usage := clamp (coerceNotna r.memory_usage 0)
    disk_usage := clamp (coerceNotna r.disk_usage 50) }

/-- The record built by `upload_metrics` in upload-clean-data.py
(lines 94..106), restricted to its numeric fields. -/
structure CleanMetric where
  cpu_usage : ℚ
  memory_usage : ℚ
  disk_usage : PyFloat
  network_latency : PyFloat
  network_throughput : PyFloat
  process_count : ℤ
  deriving DecidableEq

/-- Embedding of the per-row transform in `upload_metrics`
(upload-clean-data.py lines 87..105).  cpu and memory are notna-guarded;
disk, latency and throughput use the unguarded `float(row.get(...))`, so
a present NaN flows into min and max; `int(row.get(k, 50))` raises
ValueError on NaN, which is the Except.error case. -/
def cleanTransformRow (r : RawMetricRow) : Except Unit CleanMetric :=
  match r.process_count with
  | PyVal.nan => Except.error ()
  | pc =>
    Except.ok
      { cpu_usage := clamp (coerceNotna r.cpu_usage 0)
        memory_usage := clamp (coerceNotna r.memory_usage 0)
        disk_usage := pymax (PyFloat.num 0) (pymin (PyFloat.num 100) (pyFloatOf r.disk_usage 50))
        network_latency := pymax (PyFloat.num 0) (pyFloatOf r.network_latency 10)
        network_throughput := pymax (PyFloat.num 0) (pyFloatOf r.network_throughput 100)
        process_count := max 0 (pyInt (match pc with | PyVal.num q => q | _ => 50)) }

theorem pymin_num (x y : ℚ) : pymin (PyFloat.num x) (PyFloat.num y) = PyFloat.num (min x y) := by
  simp only [pymin]
  split <;> rename_i h
  · rw [min_eq_right (le_of_lt h)]
  · rw [min_eq_left (le_of_not_lt h)]

theorem pymax_num (x y : ℚ) : pymax (PyFloat.num x) (PyFloat.num y) = PyFloat.num (max x y) := by
  simp only [pymax]
  split <;> rename_i h
  · rw [max_eq_right (le_of_lt h)]
  · rw [max_eq_left (le_of_not_lt h)]

theorem clamp_nonneg (q : ℚ) : 0 ≤ clamp q := le_max_left 0 _

theorem clamp_le_100 (q : ℚ) : clamp q ≤ 100 :=
  max_le (by norm_num) (min_le_left 100 q)

/-- The clean-data disk expression never stays NaN: a NaN input is turned
into 100 by the Python min, and numeric inputs are clamped. -/
theorem clean_disk_num (v : PyVal) :
    ∃ q : ℚ, pymax (PyFloat.num 0) (pymin (PyFloat.num 100) (pyFloatOf v 50)) = PyFloat.num q ∧
      0 ≤ q ∧ q ≤ 100 := by
  cases v with
  | missing =>
    exact ⟨50, by decide, by norm_num, by norm_num⟩
  | nan =>
    exact ⟨100, by decide, by norm_num, by norm_num⟩
  | num q =>
    refine ⟨clamp q, ?_, clamp_nonneg q, clamp_le_100 q⟩
    simp [pyFloatOf, pymin_num, pymax_num, clamp]

/-! ## cleanup-data.py: availability probe and bulk purge -/

/-- Outcome of one HTTP request as the scripts observe it: a status code,
or a raised exception (timeout, connection refused, ...). -/
inductive HttpResult where
  | status (code : Nat)
  | exc
  deriving DecidableEq

/-- Environment of one cleanup-data.py run: the response to the status
probe and the response to each POSTed SQL statement. -/
structure CleanupEnv where
  statusResp : HttpResult
  sqlResp : String → HttpResult

/-- The fixed ordered purge list of cleanup-data.py lines 32..42. -/
def cleanup_operations : List (String × String) :=
  [("server_metrics", "DELETE FROM server_metrics"),
   ("predictions", "DELETE FROM predictions"),
   ("alerts", "DELETE FROM alerts"),
   ("anomalies", "DELETE FROM anomalies"),
   ("remediation_actions", "DELETE FROM remediation_actions"),
   ("audit_logs", "DELETE FROM audit_logs"),
   ("llm_usage", "DELETE FROM llm_usage"),
   ("agent_control_settings", "DELETE FROM agent_control_settings"),
   ("servers", "DELETE FROM servers")]

/-- A request counts as success exactly when it returned status 200;
an exception or any other status is failure. -/
def isOk200 (r : HttpResult) : Bool :=
  match r with
  | HttpResult.status c => c == 200
  | HttpResult.exc => false

/-- Embedding of `check_server_status` (cleanup-data.py lines 15..21):
one probe, exceptions mapped to False, otherwise code == 200. -/
def check_server_status (e : CleanupEnv) : Bool := isOk200 e.statusResp

/-- The (table, success) outcomes of the deletes actually submitted by
`cleanup_data`: the whole fixed list when the probe succeeded, and
nothing at all when it failed (lines 28..30 return before the loop). -/
def cleanup_attempts (e : CleanupEnv) : List (String × Bool) :=
  if check_server_status e then
    cleanup_operations.map (fun op => (op.1, isOk200 (e.sqlResp op.2)))
  else []

/-- The success_count tallied by the loop in cleanup-data.py lines 44..61. -/
def cleanup_success_count (e : CleanupEnv) : Nat :=
  (cleanup_attempts e).countP (fun p => p.2)

/-- Embedding of the overall result of `cleanup_data` (lines 23..74):
False when the probe failed, otherwise True exactly when
success_count equals the length of the fixed list. -/
def cleanup_data (e : CleanupEnv) : Bool :=
  check_server_status e && (cleanup_success_count e == cleanup_operations.length)

/-! ## Claims C1, C2, C7 -/

/-- C1: for every input row, each percentage-type numeric field
(cpu_usage, memory_usage, disk_usage) of the transformed metric record
lies in [0, 100], in both upload scripts, regardless of the magnitude or
sign of the raw value (missing and NaN cells included). -/
theorem c1_percent_fields_in_range (r : RawMetricRow) :
    (0 ≤ (directCleanRow r).cpu_usage ∧ (directCleanRow r).cpu_usage ≤ 100) ∧
    (0 ≤ (directCleanRow r).memory_usage ∧ (directCleanRow r).memory_usage ≤ 100) ∧
    (0 ≤ (directCleanRow r).disk_usage ∧ (directCleanRow r).disk_usage ≤ 100) ∧
    (∀ m : CleanMetric, cleanTransformRow r = Except.ok m →
      (0 ≤ m.cpu_usage ∧ m.cpu_usage ≤ 100) ∧
      (0 ≤ m.memory_usage ∧ m.memory_usage ≤ 100) ∧
      ∃ q : ℚ, m.disk_usage = PyFloat.num q ∧ 0 ≤ q ∧ q ≤ 100) := by
  refine ⟨⟨clamp_nonneg _, clamp_le_100 _⟩, ⟨clamp_nonneg _, clamp_le_100 _⟩,
    ⟨clamp_nonneg _, clamp_le_100 _⟩, ?_⟩
  intro m hm
  have hok : ∀ pc, r.process_count = pc → pc ≠ PyVal.nan →
      cleanTransformRow r = Except.ok
        { cpu_usage := clamp (coerceNotna r.cpu_usage 0)
          memory_usage := clamp (coerceNotna r.memory_usage 0)
          disk_usage := pymax (PyFloat.num 0) (pymin (PyFloat.num 100) (pyFloatOf r.disk_usage 50))
          network_latency := pymax (PyFloat.num 0) (pyFloatOf r.network_latency 10)
          network_throughput := pymax (PyFloat.num 0) (pyFloatOf r.network_throughput 100)
          process_count := max 0 (pyInt (match pc with | PyVal.num q => q | _ => 50)) } := by
    intro pc hpc hne
    rw [cleanTransformRow, hpc]
    cases pc with
    | missing => rfl
    | nan => exact absurd rfl hne
    | num q => rfl
  by_cases hnan : r.process_count = PyVal.nan
  · rw [cleanTransformRow, hnan] at hm
    exact absurd hm (by simp)
  · rw [hok r.process_count rfl hnan] at hm
    obtain rfl : m = _ := (Except.ok.injEq _ _).mp hm.symm
    exact ⟨⟨clamp_nonneg _, clamp_le_100 _⟩, ⟨clamp_nonneg _, clamp_le_100 _⟩,
      clean_disk_num r.disk_usage⟩

/-- C2: with the server reachable, cleanup_data reports success iff every
one of the 9 fixed purge items succeeded; every item of the fixed list is
attempted no matter which items fail. -/
theorem c2_purge_success_iff_all (e : CleanupEnv)
    (h : check_server_status e = true) :
    (cleanup_data e = true ↔ ∀ p ∈ cleanup_attempts e, p.2 = true) ∧
    (cleanup_attempts e).length = 9 ∧
    (cleanup_attempts e).map Prod.fst = cleanup_operations.map Prod.fst := by
  have hatt : cleanup_attempts e =
      cleanup_operations.map (fun op => (op.1, isOk200 (e.sqlResp op.2))) := by
    simp [cleanup_attempts, h]
  refine ⟨?_, by simp [hatt, cleanup_operations], by simp [hatt]⟩
  rw [cleanup_data, h, Bool.true_and, cleanup_success_count]
  have hlen : (cleanup_attempts e).length = cleanup_operations.length := by
    simp [hatt]
  constructor
  · intro hc
    rw [beq_iff_eq, ← hlen] at hc
    intro p hp
    exact List.countP_eq_length.mp hc p hp
  · intro hall
    rw [beq_iff_eq, ← hlen]
    exact List.countP_eq_length.mpr hall

/-- Witness for C2 at a concrete environment where every request
returns 200. -/
def envAll200 : CleanupEnv :=
  { statusResp := HttpResult.status 200, sqlResp := fun _ => HttpResult.status 200 }

theorem c2_witness :
    (cleanup_data envAll200 = true ↔ ∀ p ∈ cleanup_attempts envAll200, p.2 = true) ∧
    (cleanup_attempts envAll200).length = 9 ∧
    (cleanup_attempts envAll200).map Prod.fst = cleanup_operations.map Prod.fst :=
  c2_purge_success_iff_all envAll200 (by rfl)

/-- C7: the prober classifies the platform unreachable exactly when the
single status request raised or returned a status other than 200, and an
unreachable result aborts the purge before any delete is submitted. -/
theorem c7_prober_unreachable (e : CleanupEnv) :
    (check_server_status e = false ↔ e.statusResp ≠ HttpResult.status 200) ∧
    (check_server_status e = false →
      cleanup_attempts e = [] ∧ cleanup_data e = false) := by
  constructor
  · rw [check_server_status]
    cases hr : e.statusResp with
    | status c => simp [isOk200]
    | exc => simp [isOk200]
  · intro h
    refine ⟨by simp [cleanup_attempts, h], by simp [cleanup_data, h]⟩

/-- Witness for C7 at a concrete environment whose probe raises. -/
def envProbeExc : CleanupEnv :=
  { statusResp := HttpResult.exc, sqlResp := fun _ => HttpResult.status 200 }

theorem c7_witness :
    cleanup_attempts envProbeExc = [] ∧ cleanup_data envProbeExc = false :=
  (c7_prober_unreachable envProbeExc).2 (by rfl)

/-! ## Claim C6: defaults for missing / NaN numeric fields -/

/-- A row whose disk_usage column is present but holds NaN; all other
numeric columns are ordinary values. -/
def rowDiskNaN : RawMetricRow :=
  { cpu_usage := PyVal.num 40, memory_usage := PyVal.num 60,
    disk_usage := PyVal.nan, network_latency := PyVal.num 12,
    network_throughput := PyVal.num 150, process_count := PyVal.num 80 }

/-- A row whose process_count column is present but holds NaN. -/
def rowProcNaN : RawMetricRow :=
  { cpu_usage := PyVal.num 40, memory_usage := PyVal.num 60,
    disk_usage := PyVal.num 70, network_latency := PyVal.num 12,
    network_throughput := PyVal.num 150, process_count := PyVal.nan }

/-- Counterexample to C6 as stated: in upload-clean-data.py a present NaN
disk_usage is not replaced by the documented default 50 but clamped to
100 (Python min treats every comparison with NaN as false), and a present
NaN process_count makes int() raise instead of substituting 50. -/
theorem c6_counterexample :
    (∃ m, cleanTransformRow rowDiskNaN = Except.ok m ∧
      m.disk_usage = PyFloat.num 100 ∧ PyFloat.num 100 ≠ PyFloat.num 50) ∧
    cleanTransformRow rowProcNaN = Except.error () := by
  refine ⟨⟨_, rfl, ?_, ?_⟩, rfl⟩
  · decide
  · decide

/-- C6 (amended): a missing numeric field is replaced by its documented
default in both scripts, and direct-data-upload.py also replaces NaN by
the default for all three fields; but in upload-clean-data.py a present
NaN is only defaulted for the notna-guarded cpu and memory fields, while
NaN disk_usage clamps to 100, NaN network_latency and network_throughput
clamp to 0, and NaN process_count raises (Except.error). -/
theorem c6_defaults_amended (r : RawMetricRow) :
    ((r.cpu_usage = PyVal.missing ∨ r.cpu_usage = PyVal.nan) →
      (directCleanRow r).cpu_usage = 0) ∧
    ((r.memory_usage = PyVal.missing ∨ r.memory_usage = PyVal.nan) →
      (directCleanRow r).memory_usage = 0) ∧
    ((r.disk_usage = PyVal.missing ∨ r.disk_usage = PyVal.nan) →
      (directCleanRow r).disk_usage = 50) ∧
    (cleanTransformRow r = Except.error () ↔ r.process_count = PyVal.nan) ∧
    (∀ m : CleanMetric, cleanTransformRow r = Except.ok m →
      ((r.cpu_usage = PyVal.missing ∨ r.cpu_usage = PyVal.nan) → m.cpu_usage = 0) ∧
      ((r.memory_usage = PyVal.missing ∨ r.memory_usage = PyVal.nan) → m.memory_usage = 0) ∧
      (r.disk_usage = PyVal.missing → m.disk_usage = PyFloat.num 50) ∧
      (r.disk_usage = PyVal.nan → m.disk_usage = PyFloat.num 100) ∧
      (r.network_latency = PyVal.missing → m.network_latency = PyFloat.num 10) ∧
      (r.network_latency = PyVal.nan → m.network_latency = PyFloat.num 0) ∧
      (r.network_throughput = PyVal.missing → m.network_throughput = PyFloat.num 100) ∧
      (r.network_throughput = PyVal.nan → m.network_throughput = PyFloat.num 0) ∧
      (r.process_count = PyVal.missing → m.process_count = 50)) := by
  have hcl0 : clamp (coerceNotna PyVal.missing 0) = 0 := by decide
  have hcl0n : clamp (coerceNotna PyVal.nan 0) = 0 := by decide
  have hcl50 : clamp (coerceNotna PyVal.missing 50) = 50 := by decide
  have hcl50n : clamp (coerceNotna PyVal.nan 50) = 50 := by decide
  refine ⟨?_, ?_, ?_, ?_, ?_⟩
  · rintro (h | h) <;> simp [directCleanRow, h, hcl0, hcl0n]
  · rintro (h | h) <;> simp [directCleanRow, h, hcl0, hcl0n]
  · rintro (h | h) <;> simp [directCleanRow, h, hcl50, hcl50n]
  · constructor
    · intro h
      by_contra hne
      rw [cleanTransformRow] at h
      revert h
      cases hp : r.process_count with
      | missing => simp
      | nan => exact fun _ => hne hp
      | num q => simp
    · intro h
      rw [cleanTransformRow, h]
  · intro m hm
    rw [cleanTransformRow] at hm
    cases hp : r.process_count with
    | nan => rw [hp] at hm; exact absurd hm (by simp)
    | missing =>
      rw [hp] at hm
      obtain rfl : m = _ := (Except.ok.injEq _ _).mp hm.symm
      refine ⟨?_, ?_, ?_, ?_, ?_, ?_, ?_, ?_, ?_⟩ <;>
        first
          | (rintro (h | h) <;> simp [h, hcl0, hcl0n])
          | (intro h; simp [h, pyFloatOf, pymin, pymax]; try decide)
    | num q =>
      rw [hp] at hm
      obtain rfl : m = _ := (Except.ok.injEq _ _).mp hm.symm
      refine ⟨?_, ?_, ?_, ?_, ?_, ?_, ?_, ?_, ?_⟩ <;>
        first
          | (rintro (h | h) <;> simp [h, hcl0, hcl0n])
          | (intro h; simp [h, pyFloatOf, pymin, pymax]; try decide)

/-- Witness for C6 (amended) at a row with every column missing. -/
def rowAllMissing : RawMetricRow :=
  { cpu_usage := PyVal.missing, memory_usage := PyVal.missing,
    disk_usage := PyVal.missing, network_latency := PyVal.missing,
    network_throughput := PyVal.missing, process_count := PyVal.missing }

theorem c6_witness :
    (directCleanRow rowAllMissing).cpu_usage = 0 ∧
    (directCleanRow rowAllMissing).disk_usage = 50 ∧
    ∀ m : CleanMetric, cleanTransformRow rowAllMissing = Except.ok m →
      m.disk_usage = PyFloat.num 50 :=
  ⟨(c6_defaults_amended rowAllMissing).1 (Or.inl rfl),
   (c6_defaults_amended rowAllMissing).2.2.1 (Or.inl rfl),
   fun m hm => (((c6_defaults_amended rowAllMissing).2.2.2.2 m hm).2.2.1) rfl⟩

/-! ## upload-clean-data.py upload_metrics: batching and per-file loop -/

/-- Number of batches produced by `range(0, len, 100)`
(upload-clean-data.py line 81). -/
def numBatches (len : Nat) : Nat := (len + 99) / 100

/-- The consecutive slices `df.iloc[i:i+100]` for i = 0, 100, 200, ...
(upload-clean-data.py lines 81..82). -/
def toBatches {α : Type} (rows : List α) : List (List α) :=
  (List.range (numBatches rows.length)).map (fun j => (rows.drop (100 * j)).take 100)

theorem range_map_flatten (k : Nat) (l : List α) :
    ((List.range k).map (fun j => (l.drop (100 * j)).take 100)).flatten = l.take (100 * k) := by
  induction k with
  | zero => simp
  | succ k ih =>
    rw [List.range_succ, List.map_append, List.flatten_append, ih]
    have h100 : 100 * (k + 1) = 100 * k + 100 := by ring
    simp [h100, List.take_add]

/-- The batches are consecutive and order preserving: concatenating them
gives back the input. -/
theorem toBatches_flatten (l : List α) : (toBatches l).flatten = l := by
  rw [toBatches, range_map_flatten]
  apply List.take_of_length_le
  have h := Nat.div_add_mod (l.length + 99) 100
  have h2 : (l.length + 99) % 100 < 100 := Nat.mod_lt _ (by norm_num)
  rw [numBatches]
  omega

/-- Every batch is nonempty and has at most 100 records. -/
theorem toBatches_mem_length {l : List α} {b : List α} (hb : b ∈ toBatches l) :
    0 < b.length ∧ b.length ≤ 100 := by
  rw [toBatches] at hb
  obtain ⟨j, hj, rfl⟩ := List.mem_map.mp hb
  rw [List.mem_range, numBatches] at hj
  have h := Nat.div_add_mod (l.length + 99) 100
  have h2 : (l.length + 99) % 100 < 100 := Nat.mod_lt _ (by norm_num)
  have hlt : 100 * j < l.length := by omega
  rw [List.length_take, List.length_drop]
  omega

/-- Row-by-row construction of one metrics_batch (upload-clean-data.py
lines 85..107): the first row whose transform raises aborts with that
exception. -/
def transformBatch : List RawMetricRow → Except Unit (List CleanMetric)
  | [] => Except.ok []
  | r :: t =>
    match cleanTransformRow r with
    | Except.error e => Except.error e
    | Except.ok m =>
      match transformBatch t with
      | Except.error e => Except.error e
      | Except.ok ms => Except.ok (m :: ms)

theorem cleanTransformRow_isOk {r : RawMetricRow} (h : r.process_count ≠ PyVal.nan) :
    ∃ m, cleanTransformRow r = Except.ok m := by
  rw [cleanTransformRow]
  cases hp : r.process_count with
  | missing => exact ⟨_, rfl⟩
  | nan => exact absurd hp h
  | num q => exact ⟨_, rfl⟩

theorem transformBatch_length {b : List RawMetricRow} {ms : List CleanMetric}
    (h : transformBatch b = Except.ok ms) : ms.length = b.length := by
  induction b generalizing ms with
  | nil => cases h; rfl
  | cons r t ih =>
    rw [transformBatch] at h
    cases hr : cleanTransformRow r with
    | error e => rw [hr] at h; cases h
    | ok m =>
      cases ht : transformBatch t with
      | error e => rw [hr, ht] at h; cases h
      | ok ms2 =>
        rw [hr, ht] at h
        cases h
        simp [ih ht]

theorem transformBatch_ok {b : List RawMetricRow}
    (h : ∀ r ∈ b, r.process_count ≠ PyVal.nan) :
    ∃ ms, transformBatch b = Except.ok ms ∧ ms.length = b.length := by
  induction b with
  | nil => exact ⟨[], rfl, rfl⟩
  | cons r t ih =>
    obtain ⟨ms, hms, hlen⟩ := ih (fun x hx => h x (List.mem_cons_of_mem _ hx))
    obtain ⟨m, hm⟩ := cleanTransformRow_isOk (h r (List.mem_cons_self _ _))
    refine ⟨m :: ms, ?_, by simp [hlen]⟩
    rw [transformBatch, hm, hms]

/-- The batch loop of one file (upload-clean-data.py lines 81..118).
Returns (total acknowledged count, rows of the batches actually POSTed).
`ok i` tells whether the POST of batch i returned 200/201; a failed or
raising POST is logged and the loop continues.  A raising row transform
propagates out of this loop (it is only caught by the per-file handler),
so it drops the rest of the file. -/
def fileLoop (ok : Nat → Bool) : Nat → List (List RawMetricRow) → Nat × List RawMetricRow
  | _, [] => (0, [])
  | i, b :: bs =>
    match transformBatch b with
    | Except.error _ => (0, [])
    | Except.ok mb =>
      let rest := fileLoop ok (i + 1) bs
      ((if ok i then mb.length else 0) + rest.1, b ++ rest.2)

/-- Acknowledged count of one file. -/
def upload_file_ack (ok : Nat → Bool) (rows : List RawMetricRow) : Nat :=
  (fileLoop ok 0 (toBatches rows)).1

/-- Rows of the batches actually submitted for one file. -/
def upload_file_submitted (ok : Nat → Bool) (rows : List RawMetricRow) : List RawMetricRow :=
  (fileLoop ok 0 (toBatches rows)).2

/-- The per-file loop of `upload_metrics` (upload-clean-data.py lines
71..121): each file is processed inside its own try, so files are
independent; total_metrics sums the per-file acknowledged counts. -/
def uploadFilesLoop (ok : Nat → Nat → Bool) : Nat → List (List RawMetricRow) → Nat
  | _, [] => 0
  | k, f :: fs => upload_file_ack (ok k) f + uploadFilesLoop ok (k + 1) fs

/-- Embedding of `upload_metrics` (upload-clean-data.py lines 55..123). -/
def upload_metrics (ok : Nat → Nat → Bool) (files : List (List RawMetricRow)) : Nat :=
  uploadFilesLoop ok 0 files

theorem fileLoop_ack_le (ok : Nat → Bool) (bs : List (List RawMetricRow)) (i : Nat) :
    (fileLoop ok i bs).1 ≤ (bs.map List.length).sum := by
  induction bs generalizing i with
  | nil => simp [fileLoop]
  | cons b rest ih =>
    rw [fileLoop]
    cases hb : transformBatch b with
    | error e => simp
    | ok mb =>
      simp only [List.map_cons, List.sum_cons]
      have hlen : mb.length = b.length := transformBatch_length hb
      have : (if ok i then mb.length else 0) ≤ b.length := by
        split <;> omega
      have := ih (i + 1)
      omega

theorem fileLoop_spec (ok : Nat → Bool) (bs : List (List RawMetricRow)) (i : Nat)
    (h : ∀ b ∈ bs, ∀ r ∈ b, r.process_count ≠ PyVal.nan) :
    fileLoop ok i bs =
      (((List.enumFrom i bs).map (fun p => if ok p.1 then p.2.length else 0)).sum,
        bs.flatten) := by
  induction bs generalizing i with
  | nil => simp [fileLoop, List.enumFrom]
  | cons b rest ih =>
    obtain ⟨ms, hms, hlen⟩ := transformBatch_ok (h b (List.mem_cons_self _ _))
    rw [fileLoop, hms]
    rw [ih (i + 1) (fun x hx => h x (List.mem_cons_of_mem _ hx))]
    simp [List.enumFrom, hlen]

/-! ## direct-data-upload.py upload_metrics_data: per-row insert loop -/

/-- The row loop of `upload_metrics_data` (direct-data-upload.py lines
39..88): `break` once the row index reaches 500; a per-row try catches
any insert exception (modelled by `raises`), skips that row and
continues.  Returns the indices of the rows actually inserted. -/
def insertLoop (raises : Nat → Bool) : List (Nat × RawMetricRow) → List Nat
  | [] => []
  | (i, _) :: rest =>
    if 500 ≤ i then []
    else (if raises i then [] else [i]) ++ insertLoop raises rest

/-- Indices of the inserted rows for one run of `upload_metrics_data`:
nothing at all when no server id was found (lines 32..34 return 0). -/
def inserted_indices (serverIds : List String) (raises : Nat → Bool)
    (rows : List RawMetricRow) : List Nat :=
  if serverIds = [] then [] else insertLoop raises rows.enum

/-- The inserted_count returned by `upload_metrics_data`. -/
def upload_metrics_data (serverIds : List String) (raises : Nat → Bool)
    (rows : List RawMetricRow) : Nat :=
  (inserted_indices serverIds raises rows).length

theorem mem_enumFrom_fst {l : List α} :
    ∀ {k : Nat} {p : Nat × α}, p ∈ List.enumFrom k l → k ≤ p.1 := by
  induction l with
  | nil => intro k p h; simp [List.enumFrom] at h
  | cons a t ih =>
    intro k p h
    rw [List.enumFrom] at h
    rcases List.mem_cons.mp h with h | h
    · subst h; exact le_refl k
    · exact le_trans (Nat.le_succ k) (ih h)

/-- The insert loop keeps, in order, exactly the indices below 500 whose
insert did not raise. -/
theorem insertLoop_spec (raises : Nat → Bool) (l : List RawMetricRow) :
    ∀ k : Nat, insertLoop raises (List.enumFrom k l) =
      ((List.enumFrom k l).filter
        (fun p => decide (p.1 < 500) && !raises p.1)).map Prod.fst := by
  induction l with
  | nil => intro k; simp [List.enumFrom, insertLoop]
  | cons a t ih =>
    intro k
    rw [List.enumFrom, insertLoop]
    by_cases hk : 500 ≤ k
    · rw [if_pos hk]
      have hnil : ((k, a) :: List.enumFrom (k + 1) t).filter
          (fun p => decide (p.1 < 500) && !raises p.1) = [] := by
        rw [List.filter_eq_nil_iff]
        intro p hp
        have hge : 500 ≤ p.1 := by
          rcases List.mem_cons.mp hp with h | h
          · subst h; exact hk
          · have := mem_enumFrom_fst h
            omega
        simp [Nat.not_lt.mpr hge]
      rw [hnil]; rfl
    · rw [if_neg hk]
      have hklt : k < 500 := Nat.not_le.mp hk
      rw [List.filter_cons]
      cases hr : raises k with
      | true => simp [hklt, hr, ih (k + 1)]
      | false => simp [hklt, hr, ih (k + 1)]

theorem insertLoop_length_le (raises : Nat → Bool) (l : List RawMetricRow) :
    ∀ k : Nat, (insertLoop raises (List.enumFrom k l)).length ≤ 500 - k := by
  induction l with
  | nil => intro k; simp [List.enumFrom, insertLoop]
  | cons a t ih =>
    intro k
    rw [List.enumFrom, insertLoop]
    by_cases hk : 500 ≤ k
    · simp [hk]
    · rw [if_neg hk]
      have := ih (k + 1)
      rw [List.length_append]
      have hone : (if raises k then ([] : List Nat) else [k]).length ≤ 1 := by
        split <;> simp
      omega

/-! ## Claims C5, C9, C10 -/

/-- C5: the batch uploader splits its input into consecutive batches of
at most 100 records preserving the original order; the acknowledged total
is at most the input count; and (absent row-transform exceptions, which
claim C9 treats separately) every batch is submitted no matter which
POSTs fail, each failed batch only losing its own contribution. -/
theorem c5_batch_uploader (ok : Nat → Bool) (rows : List RawMetricRow) :
    (toBatches rows).flatten = rows ∧
    (∀ b ∈ toBatches rows, 0 < b.length ∧ b.length ≤ 100) ∧
    upload_file_ack ok rows ≤ rows.length ∧
    ((∀ r ∈ rows, r.process_count ≠ PyVal.nan) →
      upload_file_submitted ok rows = rows ∧
      upload_file_ack ok rows =
        (((toBatches rows).enum.map (fun p => if ok p.1 then p.2.length else 0)).sum)) := by
  refine ⟨toBatches_flatten rows, fun b hb => toBatches_mem_length hb, ?_, ?_⟩
  · have h := fileLoop_ack_le ok (toBatches rows) 0
    rw [upload_file_ack]
    calc (fileLoop ok 0 (toBatches rows)).1
        ≤ ((toBatches rows).map List.length).sum := h
      _ = (toBatches rows).flatten.length := (List.length_flatten _).symm
      _ = rows.length := by rw [toBatches_flatten]
  · intro hrows
    have hb : ∀ b ∈ toBatches rows, ∀ r ∈ b, r.process_count ≠ PyVal.nan := by
      intro b hbmem r hr
      apply hrows
      have : r ∈ (toBatches rows).flatten := List.mem_flatten.mpr ⟨b, hbmem, hr⟩
      rwa [toBatches_flatten] at this
    have h := fileLoop_spec ok (toBatches rows) 0 hb
    rw [upload_file_submitted, upload_file_ack, h]
    exact ⟨toBatches_flatten rows, rfl⟩

/-- Witness rows for the loop claims. -/
def rowGood : RawMetricRow :=
  { cpu_usage := PyVal.num 30, memory_usage := PyVal.num 45,
    disk_usage := PyVal.num 70, network_latency := PyVal.num 12,
    network_throughput := PyVal.num 150, process_count := PyVal.num 80 }

theorem c5_witness :
    upload_file_submitted (fun _ => true) [rowGood, rowGood] = [rowGood, rowGood] ∧
    upload_file_ack (fun _ => true) [rowGood, rowGood] =
      (((toBatches [rowGood, rowGood]).enum.map
        (fun p => if (fun _ => true) p.1 then p.2.length else 0)).sum) :=
  (c5_batch_uploader (fun _ => true) [rowGood, rowGood]).2.2.2 (by decide)

/-- C9 as stated is false on upload-clean-data.py: there the per-row
transform runs inside a per-file try, so one raising row (NaN
process_count makes int() raise) aborts the remaining rows of that file:
with a 2-row file whose first row raises, nothing is submitted, while
the good second row alone would have been submitted. -/
theorem c9_counterexample :
    cleanTransformRow rowProcNaN = Except.error () ∧
    upload_file_submitted (fun _ => true) [rowProcNaN, rowGood] = [] ∧
    upload_file_submitted (fun _ => true) [rowGood] = [rowGood] := by
  refine ⟨rfl, ?_, ?_⟩ <;> decide

/-- C9 (amended): in direct-data-upload.py a per-row exception is caught
at row level, the row is skipped and the loop continues (the inserted
indices are exactly the non-raising ones below 500); in
upload-clean-data.py the catch is per file: a raising batch drops the
rest of its own file, while the loop over files continues with the next
file either way. -/
theorem c9_per_row_errors_amended :
    (∀ (serverIds : List String) (raises : Nat → Bool) (rows : List RawMetricRow),
      serverIds ≠ [] →
      upload_metrics_data serverIds raises rows =
        (rows.enum.filter (fun p => decide (p.1 < 500) && !raises p.1)).length) ∧
    (∀ (ok : Nat → Nat → Bool) (k : Nat) (f : List RawMetricRow)
        (fs : List (List RawMetricRow)),
      uploadFilesLoop ok k (f :: fs) =
        upload_file_ack (ok k) f + uploadFilesLoop ok (k + 1) fs) ∧
    (∀ (ok : Nat → Bool) (i : Nat) (b : List RawMetricRow)
        (bs : List (List RawMetricRow)),
      transformBatch b = Except.error () → fileLoop ok i (b :: bs) = (0, [])) := by
  refine ⟨?_, fun ok k f fs => rfl, ?_⟩
  · intro serverIds raises rows hne
    rw [upload_metrics_data, inserted_indices, if_neg hne]
    have henum : rows.enum = List.enumFrom 0 rows := rfl
    rw [henum, insertLoop_spec raises rows 0, List.length_map]
  · intro ok i b bs hb
    rw [fileLoop, hb]

theorem c9_witness :
    upload_metrics_data ["srv-001"] (fun i => i == 0) [rowGood, rowGood] =
      ([rowGood, rowGood].enum.filter
        (fun p => decide (p.1 < 500) && !(fun i => i == 0) p.1)).length :=
  c9_per_row_errors_amended.1 ["srv-001"] (fun i => i == 0) [rowGood, rowGood] (by decide)

/-- C10: the direct database upload never processes more than the first
500 rows: the returned count is at most min(500, number of rows) and
every inserted index is below 500. -/
theorem c10_first_500_only (serverIds : List String) (raises : Nat → Bool)
    (rows : List RawMetricRow) :
    upload_metrics_data serverIds raises rows ≤ min 500 rows.length ∧
    ∀ i ∈ inserted_indices serverIds raises rows, i < 500 := by
  rw [upload_metrics_data, inserted_indices]
  by_cases hne : serverIds = []
  · simp [hne]
  · rw [if_neg hne]
    have henum : rows.enum = List.enumFrom 0 rows := rfl
    constructor
    · apply le_min
      · have := insertLoop_length_le raises rows 0
        rw [henum]
        omega
      · rw [henum, insertLoop_spec raises rows 0, List.length_map]
        calc ((List.enumFrom 0 rows).filter _).length
            ≤ (List.enumFrom 0 rows).length := List.length_filter_le _ _
          _ = rows.length := List.enumFrom_length
    · intro i hi
      rw [henum, insertLoop_spec raises rows 0] at hi
      obtain ⟨p, hp, rfl⟩ := List.mem_map.mp hi
      have := (List.mem_filter.mp hp).2
      simp only [Bool.and_eq_true, decide_eq_true_eq] at this
      exact this.1

theorem c10_witness :
    upload_metrics_data ["srv-001"] (fun _ => false) [rowGood] ≤
      min 500 ([rowGood] : List RawMetricRow).length :=
  (c10_first_500_only ["srv-001"] (fun _ => false) [rowGood]).1

/-! ## test-comprehensive.py: test log and report emitter -/

/-- The four test outcome states of PlatformTester. -/
inductive TState where
  | PASS
  | FAIL
  | WARN
  | INFO
  deriving DecidableEq

/-- One logged test result (test-comprehensive.py lines 26..33); the
timestamp is kept as an opaque string. -/
structure TestRec where
  status : TState
  details : String
  timestamp : String
  deriving DecidableEq

/-- Embedding of `log_test`: the test_results dict maps test name to the
latest result; a duplicate key overwrites in place, otherwise the entry
is appended (Python dicts preserve insertion order). -/
def log_test (results : List (String × TestRec)) (name : String) (r : TestRec) :
    List (String × TestRec) :=
  if results.any (fun p => p.1 == name) then
    results.map (fun p => if p.1 == name then (p.1, r) else p)
  else results ++ [(name, r)]

/-- The summary block computed by `generate_report`
(test-comprehensive.py lines 256..266 and 278..285). -/
structure Summary where
  total : Nat
  passed : Nat
  failed : Nat
  warnings : Nat
  info : Nat
  success_rate : ℚ
  deriving DecidableEq

/-- The counting pattern `sum(1 for result in values if status == s)`. -/
def countStatus (s : TState) (results : List (String × TestRec)) : Nat :=
  results.foldl (fun acc p => if p.2.status = s then acc + 1 else acc) 0

/-- Embedding of the summary computation of `generate_report`: per-state
counts and success_rate = passed / total * 100 (exact rational in place
of the Python float). -/
def generate_summary (results : List (String × TestRec)) : Summary :=
  { total := results.length
    passed := countStatus TState.PASS results
    failed := countStatus TState.FAIL results
    warnings := countStatus TState.WARN results
    info := countStatus TState.INFO results
    success_rate := (countStatus TState.PASS results : ℚ) / (results.length : ℚ) * 100 }

/-- JSON values as written by json.dump and read back by json.load. -/
inductive JVal where
  | jnum (q : ℚ)
  | jstr (s : String)
  | jobj (fields : List (String × JVal))

/-- The serialized summary object (test-comprehensive.py lines 278..285). -/
def summary_json (s : Summary) : JVal :=
  JVal.jobj [("total", JVal.jnum s.total), ("passed", JVal.jnum s.passed),
             ("failed", JVal.jnum s.failed), ("warnings", JVal.jnum s.warnings),
             ("info", JVal.jnum s.info), ("success_rate", JVal.jnum s.success_rate)]

/-- The JSON report document written to test_report.json
(test-comprehensive.py lines 276..291): the summary, the per-test
details and the dataset hashes. -/
def report_json (results : List (String × TestRec)) (hashes : List (String × String)) : JVal :=
  JVal.jobj [("summary", summary_json (generate_summary results)),
             ("results", JVal.jobj (results.map (fun p => (p.1, JVal.jstr p.2.details)))),
             ("data_info", JVal.jobj [("data_hashes",
                JVal.jobj (hashes.map (fun p => (p.1, JVal.jstr p.2))))])]

/-- Reading a JSON number back as a nonnegative integer count. -/
def asCount (j : JVal) : Option Nat :=
  match j with
  | JVal.jnum q => if q.den = 1 ∧ 0 ≤ q.num then some q.num.toNat else none
  | _ => none

def asRat (j : JVal) : Option ℚ :=
  match j with
  | JVal.jnum q => some q
  | _ => none

/-- Deserializing the summary block of a loaded report. -/
def read_summary (j : JVal) : Option Summary :=
  match j with
  | JVal.jobj fs =>
    (List.lookup "total" fs).bind fun jt => (asCount jt).bind fun t =>
    (List.lookup "passed" fs).bind fun jp => (asCount jp).bind fun p =>
    (List.lookup "failed" fs).bind fun jf => (asCount jf).bind fun f =>
    (List.lookup "warnings" fs).bind fun jw => (asCount jw).bind fun w =>
    (List.lookup "info" fs).bind fun ji => (asCount ji).bind fun i =>
    (List.lookup "success_rate" fs).bind fun jr => (asRat jr).bind fun r =>
    some { total := t, passed := p, failed := f, warnings := w, info := i,
           success_rate := r }
  | _ => none

/-- Deserializing the whole report file and extracting its summary. -/
def read_report_summary (j : JVal) : Option Summary :=
  match j with
  | JVal.jobj fs => (List.lookup "summary" fs).bind read_summary
  | _ => none

theorem countStatus_go (s : TState) (l : List (String × TestRec)) :
    ∀ acc : Nat, l.foldl (fun acc p => if p.2.status = s then acc + 1 else acc) acc =
      acc + (l.filter (fun p => p.2.status = s)).length := by
  induction l with
  | nil => intro acc; simp
  | cons a t ih =>
    intro acc
    by_cases h : a.2.status = s
    · simp only [List.foldl_cons, if_pos h]
      rw [ih (acc + 1), List.filter_cons]
      simp [h]
      omega
    · simp only [List.foldl_cons, if_neg h]
      rw [ih acc, List.filter_cons]
      simp [h]

theorem countStatus_eq_filter (s : TState) (results : List (String × TestRec)) :
    countStatus s results = (results.filter (fun p => p.2.status = s)).length := by
  rw [countStatus, countStatus_go]
  omega

theorem asCount_natCast (n : Nat) : asCount (JVal.jnum (n : ℚ)) = some n := by
  rw [asCount]
  rw [if_pos]
  · simp
  · constructor
    · exact Rat.den_natCast n
    · rw [Rat.num_natCast]; exact Int.ofNat_nonneg n

/-- C8: the summary counts of generate_report equal the number of logged
outcomes in each state, total is the number of logged tests,
success_rate is exactly passed / total as a percentage, and
deserializing the written JSON report reproduces the same summary. -/
theorem c8_report_emitter (results : List (String × TestRec))
    (hashes : List (String × String)) (_hnonempty : results ≠ []) :
    (generate_summary results).total = results.length ∧
    (generate_summary results).passed =
      (results.filter (fun p => p.2.status = TState.PASS)).length ∧
    (generate_summary results).failed =
      (results.filter (fun p => p.2.status = TState.FAIL)).length ∧
    (generate_summary results).warnings =
      (results.filter (fun p => p.2.status = TState.WARN)).length ∧
    (generate_summary results).info =
      (results.filter (fun p => p.2.status = TState.INFO)).length ∧
    (generate_summary results).success_rate =
      ((generate_summary results).passed : ℚ) / ((generate_summary results).total : ℚ) * 100 ∧
    read_report_summary (report_json results hashes) = some (generate_summary results) := by
  refine ⟨rfl, countStatus_eq_filter _ _, countStatus_eq_filter _ _,
    countStatus_eq_filter _ _, countStatus_eq_filter _ _, rfl, ?_⟩
  rw [report_json, read_report_summary]
  have hlook : List.lookup "summary"
      [("summary", summary_json (generate_summary results)),
       ("results", JVal.jobj (results.map (fun p => (p.1, JVal.jstr p.2.details)))),
       ("data_info", JVal.jobj [("data_hashes",
          JVal.jobj (hashes.map (fun p => (p.1, JVal.jstr p.2))))])] =
      some (summary_json (generate_summary results)) := by
    simp [List.lookup]
  rw [hlook]
  show read_summary (summary_json (generate_summary results)) =
    some (generate_summary results)
  rw [summary_json, read_summary]
  simp [List.lookup, asCount_natCast, asRat]

/-- Witness data for C8: a two-test run, one PASS and one FAIL. -/
def sampleResults : List (String × TestRec) :=
  [("Load servers", { status := TState.PASS, details := "5 rows loaded", timestamp := "t1" }),
   ("API endpoint", { status := TState.FAIL, details := "Status: 500", timestamp := "t2" })]

theorem c8_witness :
    read_report_summary (report_json sampleResults [("servers", "abc123")]) =
      some (generate_summary sampleResults) :=
  (c8_report_emitter sampleResults [("servers", "abc123")]
    (by decide)).2.2.2.2.2.2

/-! ## upload-test-data.py: synthesized server ids from the builtin hash

CPython has salted the builtin `hash` of str objects with a random
per-process key since Python 3.3 (PYTHONHASHSEED): the same hostname
hashes to different values in different runs unless the seed is pinned.
We model that dependence with an explicit salt argument threaded through
a concrete string-mixing function (the exact CPython siphash is
irrelevant to the claims; what matters, and what the model keeps, is
that the value depends on both the salt and the string). -/

/-- Model of the salted CPython builtin `hash` on strings. -/
def pyStrHash (salt : Nat) (s : String) : Nat :=
  s.data.foldl (fun h c => (h * 1000003 + c.toNat) % (2 ^ 64)) (salt % 2 ^ 64)

/-- Left pad with the zero digit, the `:03d` format. -/
def zfill (w : Nat) (s : String) : String :=
  String.mk (List.replicate (w - s.length) (Char.ofNat 48)) ++ s

/-- Embedding of the server id synthesis of `generate_sql_inserts`
(upload-test-data.py lines 67, 75, 84):
`f"srv-{hash(row[hostname]) % 1000:03d}"`. -/
def synthServerId (salt : Nat) (hostname : String) : String :=
  "srv-" ++ zfill 3 (toString (pyStrHash salt hostname % 1000))

/-- C4: the synthesized server id is NOT stable across runs: the builtin
hash is salted per process, so two runs (two salts) map the same
hostname to different ids.  Evaluating the code model at the failing
input hostname "web-01" with process salts 0 and 1. -/
theorem c4_server_id_depends_on_salt :
    synthServerId 0 "web-01" ≠ synthServerId 1 "web-01" := by decide

/-! ## test-comprehensive.py load_excel_data: content hash per dataset

The script hashes `df.to_string()` with hashlib.md5.  MD5 is embedded
below in full (RFC 1321) over byte lists, with 32-bit words as naturals
reduced mod 2^32, so the hash pipeline is an executable function of the
loaded table alone. -/

/-- Reduction to a 32-bit word. -/
def m32 (x : Nat) : Nat := x % 4294967296

/-- 32-bit left rotation. -/
def rotl32 (x s : Nat) : Nat := (m32 (x <<< s)) ||| (m32 x >>> (32 - s))

/-- 32-bit complement. -/
def notw (x : Nat) : Nat := 4294967295 ^^^ m32 x

/-- The md5 sine-derived round constants K[0..63]. -/
def md5K : List Nat :=
  [3614090360, 3905402710, 606105819, 3250441966, 4118548399, 1200080426,
   2821735955, 4249261313, 1770035416, 2336552879, 4294925233, 2304563134,
   1804603682, 4254626195, 2792965006, 1236535329, 4129170786, 3225465664,
   643717713, 3921069994, 3593408605, 38016083, 3634488961, 3889429448,
   568446438, 3275163606, 4107603335, 1163531501, 2850285829, 4243563512,
   1735328473, 2368359562, 4294588738, 2272392833, 1839030562, 4259657740,
   2763975236, 1272893353, 4139469664, 3200236656, 681279174, 3936430074,
   3572445317, 76029189, 3654602809, 3873151461, 530742520, 3299628645,
   4096336452, 1126891415, 2878612391, 4237533241, 1700485571, 2399980690,
   4293915773, 2240044497, 1873313359, 4264355552, 2734768916, 1309151649,
   4149444226, 3174756917, 718787259, 3951481745]

/-- The md5 per-round shift amounts s[0..63]. -/
def md5S : List Nat :=
  [7, 12, 17, 22, 7, 12, 17, 22, 7, 12, 17, 22, 7, 12, 17, 22,
   5, 9, 14, 20, 5, 9, 14, 20, 5, 9, 14, 20, 5, 9, 14, 20,
   4, 11, 16, 23, 4, 11, 16, 23, 4, 11, 16, 23, 4, 11, 16, 23,
   6, 10, 15, 21, 6, 10, 15, 21, 6, 10, 15, 21, 6, 10, 15, 21]

/-- Little-endian 32-bit word j of a 64-byte chunk. -/
def leWord (chunk : List Nat) (j : Nat) : Nat :=
  chunk.getD (4 * j) 0 + 256 * chunk.getD (4 * j + 1) 0 +
    65536 * chunk.getD (4 * j + 2) 0 + 16777216 * chunk.getD (4 * j + 3) 0

/-- The md5 round function F of round i. -/
def md5F (i b c d : Nat) : Nat :=
  if i < 16 then (b &&& c) ||| (notw b &&& d)
  else if i < 32 then (d &&& b) ||| (notw d &&& c)
  else if i < 48 then b ^^^ c ^^^ d
  else c ^^^ (b ||| notw d)

/-- The md5 message word index g of round i. -/
def md5G (i : Nat) : Nat :=
  if i < 16 then i
  else if i < 32 then (5 * i + 1) % 16
  else if i < 48 then (3 * i + 5) % 16
  else (7 * i) % 16

/-- One md5 round on the state (a, b, c, d). -/
def md5Round (chunk : List Nat) (st : Nat × Nat × Nat × Nat) (i : Nat) :
    Nat × Nat × Nat × Nat :=
  match st with
  | (a, b, c, d) =>
    let f := m32 (md5F i b c d + a + md5K.getD i 0 + leWord chunk (md5G i))
    (d, m32 (b + rotl32 f (md5S.getD i 0)), b, c)

/-- Processing one 64-byte chunk. -/
def md5Chunk (st : Nat × Nat × Nat × Nat) (chunk : List Nat) :
    Nat × Nat × Nat × Nat :=
  match st with
  | (a0, b0, c0, d0) =>
    match (List.range 64).foldl (md5Round chunk) (a0, b0, c0, d0) with
    | (a, b, c, d) => (m32 (a0 + a), m32 (b0 + b), m32 (c0 + c), m32 (d0 + d))

/-- Little-endian byte expansion of an n-byte value. -/
def leBytes (count n : Nat) : List Nat :=
  (List.range count).map (fun i => (n >>> (8 * i)) % 256)

/-- RFC 1321 padding: append 0x80, zero-fill to 56 mod 64, then the
original bit length as a 64-bit little-endian value. -/
def md5Pad (msg : List Nat) : List Nat :=
  msg ++ [128] ++ List.replicate ((120 - (msg.length + 1) % 64) % 64) 0 ++
    leBytes 8 ((8 * msg.length) % 18446744073709551616)

/-- The 64-byte chunks of a padded message. -/
def md5Chunks (padded : List Nat) : List (List Nat) :=
  (List.range (padded.length / 64)).map (fun j => (padded.drop (64 * j)).take 64)

/-- The md5 initialization vector. -/
def md5Init : Nat × Nat × Nat × Nat := (1732584193, 4023233417, 2562383102, 271733878)

/-- A hexadecimal digit character. -/
def hexDigit (n : Nat) : Char :=
  if n < 10 then Char.ofNat (48 + n) else Char.ofNat (87 + n)

/-- Two lowercase hex digits of one byte. -/
def byteHex (b : Nat) : String :=
  String.mk [hexDigit (b / 16), hexDigit (b % 16)]

/-- The md5 hex digest of a byte list, as hashlib.md5(...).hexdigest(). -/
def md5hex (msg : List Nat) : String :=
  match (md5Chunks (md5Pad msg)).foldl md5Chunk md5Init with
  | (a, b, c, d) =>
    String.join ((leBytes 4 a ++ leBytes 4 b ++ leBytes 4 c ++ leBytes 4 d).map byteHex)

/-- Byte view of the data string (the files hold ASCII tabular text). -/
def strBytes (s : String) : List Nat := s.data.map Char.toNat

/-- An in-memory table as loaded from one spreadsheet. -/
structure Table where
  header : List String
  rows : List (List String)
  deriving DecidableEq

/-- Model of `df.to_string()`: a deterministic textual rendering of the
table contents (header then rows, whitespace separated). -/
def tableToString (t : Table) : String :=
  String.intercalate "\n"
    (String.intercalate " " t.header :: t.rows.map (String.intercalate " "))

/-- The per-dataset content hash of `load_excel_data`
(test-comprehensive.py lines 52..54):
hashlib.md5(df.to_string().encode()).hexdigest(). -/
def dataHash (t : Table) : String := md5hex (strBytes (tableToString t))

/-- The fixed name-to-path file table of `load_excel_data`
(test-comprehensive.py lines 39..45). -/
def excel_files : List (String × String) :=
  [("servers", "attached_assets/servers_synthetic (1)_1755240551637.xlsx"),
   ("metrics", "attached_assets/metrics_synthetic (1)_1755240551636.xlsx"),
   ("alerts", "attached_assets/alerts_synthetic (1)_1755240551635.xlsx"),
   ("remediations", "attached_assets/remediations_synthetic (1)_1755240551634.xlsx"),
   ("audit_logs", "attached_assets/audit-logs_synthetic (1)_1755240551632.xlsx")]

/-- Embedding of the hash side of `load_excel_data`: one run reads each
file (readFile models pd.read_excel, None when it raises) and records
the content hash of each dataset that loaded; a failing file only logs
FAIL and produces no hash. -/
def load_data_hashes (readFile : String → Option Table) : List (String × String) :=
  excel_files.filterMap
    (fun p => (readFile p.2).map (fun t => (p.1, dataHash t)))

/-- C3: the content hash is deterministic: two runs whose reads return
identical tables for every path produce identical per-dataset hashes;
nothing besides the loaded bytes enters the digest. -/
theorem c3_hash_deterministic (read1 read2 : String → Option Table)
    (h : ∀ path : String, read1 path = read2 path) :
    load_data_hashes read1 = load_data_hashes read2 := by
  have : read1 = read2 := funext h
  rw [this]

/-- A tiny concrete table for the C3 witness. -/
def sampleTable : Table :=
  { header := ["hostname", "cpu_usage"], rows := [["web-01", "42"], ["db-01", "88"]] }

theorem c3_witness :
    load_data_hashes (fun _ => some sampleTable) =
      load_data_hashes (fun _ => some sampleTable) :=
  c3_hash_deterministic (fun _ => some sampleTable) (fun _ => some sampleTable)
    (fun _ => rfl)

/-- Sanity anchor for the md5 embedding: the digest of "abc" matches the
published RFC 1321 test vector. -/
theorem md5hex_abc :
    md5hex (strBytes "abc") = "900150983cd24fb0d6963f7d28e17f72" := by
  set_option maxRecDepth 100000 in decide

end AgentOps
